import Mathlib

/-!
Verification of the voice-capture-to-transcript pipeline of the health-gpt
repository: the ASR error taxonomy (src/types/asr.ts), the exponential-backoff
retry wrapper (services/alibabaASR.ts, `transcribeWithRetry`), the transcription
flow of the `useAlibabaASR` hook, and the recording-session control of the
`useVoiceRecording` hook (stopRecording and the duration-interval tick).

The embedding is shallow: JavaScript numbers used for durations are modelled as
exact rationals (the source only divides milliseconds by 1000 and compares to
0.5 / 60, which is exact), status-code unions `number | string` become an
inductive sum, thrown errors become explicit result constructors, and the
side-effecting hook bodies become pure functions that return the ordered list
of effects they perform.
-/

-- ============================================
-- Constants (src/constants/voice.ts)
-- ============================================

/-- `MAX_DURATION = 60` (seconds). -/
def MAX_DURATION : ℚ := 60

/-- `MIN_DURATION = 0.5` (seconds). -/
def MIN_DURATION : ℚ := 0.5

/-- `ASR_MAX_RETRIES = 3`. -/
def ASR_MAX_RETRIES : Nat := 3

/-- `ASR_RETRY_DELAY = 1000` (milliseconds). -/
def ASR_RETRY_DELAY : Nat := 1000

-- ============================================
-- Error taxonomy (src/types/asr.ts)
-- ============================================

/-- An error code as it exists at runtime: either a numeric provider status
code (`ASRStatusCode`, but any number can arrive in `header.status`) or a
string code (`NetworkErrorType` members, plus whatever string the caller
passes, e.g. the hook's literal TOKEN_MISSING). -/
inductive ASRErrCode where
  | status (n : Nat)
  | net (s : String)
deriving DecidableEq, Repr

/-- The value type of `ASR_ERROR_MAP` / `NETWORK_ERROR_MAP` entries
(`Omit<ASRErrorInfo, 'code'>`). -/
structure ErrInfo where
  message : String
  userMessage : String
  retriable : Bool
deriving DecidableEq, Repr

/-- `ASR_ERROR_MAP` from src/types/asr.ts, as the runtime lookup
`ASR_ERROR_MAP[code]`: defined on exactly the listed status codes,
`none` (undefined) elsewhere. -/
def ASR_ERROR_MAP : Nat → Option ErrInfo
  | 20000000 => some ⟨"Recognition successful", "识别成功", false⟩
  | 40000001 => some ⟨"Invalid or expired token", "服务暂时不可用，请稍后重试", true⟩
  | 40000002 => some ⟨"Token missing", "服务暂时不可用，请稍后重试", false⟩
  | 40000003 => some ⟨"Invalid audio format", "音频格式不支持，请重新录制", false⟩
  | 40000004 => some ⟨"Request body too large", "音频文件过大，请重新录制", false⟩
  | 40000013 => some ⟨"Audio duration exceeds 60 seconds", "录音时间过长，请控制在60秒内", false⟩
  | 40000014 => some ⟨"Audio duration less than 0.5 seconds", "录音时间过短，请重新录制", true⟩
  | 40000015 => some ⟨"Audio quality too poor", "音频质量较差，建议在安静环境重新录制", true⟩
  | 40000100 => some ⟨"Concurrent requests limit exceeded", "服务繁忙，请稍后重试", true⟩
  | 50000000 => some ⟨"Internal server error", "服务暂时不可用，请稍后重试", true⟩
  | 50000001 => some ⟨"Server timeout", "服务响应超时，请重试", true⟩
  | 50000003 => some ⟨"Service unavailable", "服务维护中，请稍后重试", true⟩
  | _ => none

/-- `NETWORK_ERROR_MAP` from src/types/asr.ts, as the runtime string-keyed
lookup. -/
def NETWORK_ERROR_MAP : String → Option ErrInfo
  | "NETWORK_UNAVAILABLE" => some ⟨"No network connection", "无网络连接，请检查网络后重试", true⟩
  | "TIMEOUT" => some ⟨"Request timeout after 15 seconds", "请求超时，请检查网络后重试", true⟩
  | "PARSE_ERROR" => some ⟨"Failed to parse server response", "服务返回数据异常，请重试", true⟩
  | _ => none

/-- `isRetriable(code)` from src/types/asr.ts: map lookup with `?? false`
fallback on both the string (network) and numeric (provider) sides. -/
def isRetriable : ASRErrCode → Bool
  | .net s => ((NETWORK_ERROR_MAP s).map ErrInfo.retriable).getD false
  | .status n => ((ASR_ERROR_MAP n).map ErrInfo.retriable).getD false

/-- `getUserMessage(code)` from src/types/asr.ts, with the two distinct
generic fallbacks of the source. -/
def getUserMessage : ASRErrCode → String
  | .net s => ((NETWORK_ERROR_MAP s).map ErrInfo.userMessage).getD "未知错误，请重试"
  | .status n => ((ASR_ERROR_MAP n).map ErrInfo.userMessage).getD "语音识别失败，请重试"

-- ============================================
-- ASRError class (services/alibabaASR.ts)
-- ============================================

/-- The `ASRError` instance fields relevant to control flow. -/
structure ASRError where
  code : ASRErrCode
  statusText : String
  userMessage : String
  retriable : Bool
  taskId : Option String
deriving DecidableEq, Repr

/-- The `ASRError` constructor: `userMessage` and `retriable` are derived from
the mapping tables at construction time. -/
def mkASRError (code : ASRErrCode) (statusText : String) (taskId : Option String) : ASRError :=
  { code := code
    statusText := statusText
    userMessage := getUserMessage code
    retriable := isRetriable code
    taskId := taskId }

-- ============================================
-- Retry wrapper (services/alibabaASR.ts, transcribeWithRetry)
-- ============================================

/-- Outcome of one `transcribeAudio` network attempt, as seen by the retry
loop's try/catch: a recognized text, a thrown `ASRError`, or a thrown value
that is not an `ASRError`. -/
inductive AttemptOutcome where
  | ok (text : String)
  | asrErr (e : ASRError)
  | otherErr
deriving DecidableEq, Repr

/-- What `transcribeWithRetry` does on return: returns text, throws an
`ASRError`, re-throws a non-ASR error, or throws `lastError!` while
`lastError` was never assigned (an `undefined` value). -/
inductive RetryResult where
  | success (text : String)
  | thrownASR (e : ASRError)
  | thrownOther
  | thrownUndefined
deriving DecidableEq, Repr

/-- Observable trace of one `transcribeWithRetry` invocation: its result, the
number of `transcribeAudio` network attempts issued, and the backoff delays
slept (milliseconds, in order). -/
structure RetryRun where
  result : RetryResult
  attempts : Nat
  delays : List Nat
deriving DecidableEq, Repr

/-- The body of `transcribeWithRetry`'s `for (let attempt = 0; attempt <
maxRetries; attempt++)` loop. `env i` is the outcome of the network attempt
with loop index `i`; `remaining` counts the loop iterations still allowed
(`maxRetries - attempt`, made structural); `lastError` is the `lastError`
variable (none = still unassigned). Falling out of the loop throws
`lastError!`. -/
def retryAux (env : Nat → AttemptOutcome) (maxRetries : Nat) :
    Nat → Nat → Option ASRError → RetryRun
  | _, 0, lastError =>
    match lastError with
    | some e => ⟨.thrownASR e, 0, []⟩
    | none => ⟨.thrownUndefined, 0, []⟩
  | attempt, remaining + 1, _ =>
    match env attempt with
    | .ok t => ⟨.success t, 1, []⟩
    | .otherErr => ⟨.thrownOther, 1, []⟩
    | .asrErr e =>
      if e.retriable = false then ⟨.thrownASR e, 1, []⟩
      else if maxRetries - 1 ≤ attempt then ⟨.thrownASR e, 1, []⟩
      else
        let d := 2 ^ attempt * ASR_RETRY_DELAY
        let r := retryAux env maxRetries (attempt + 1) remaining (some e)
        ⟨r.result, r.attempts + 1, d :: r.delays⟩

/-- `transcribeWithRetry(audioUri, token, maxRetries)`: run the loop from
index 0 with the full budget and an unassigned `lastError`. The source's
default for `maxRetries` is `ASR_MAX_RETRIES`. -/
def transcribeWithRetry (env : Nat → AttemptOutcome) (maxRetries : Nat) : RetryRun :=
  retryAux env maxRetries 0 maxRetries none

-- ============================================
-- Transcription flow (hooks/useAlibabaASR.ts, transcribe)
-- ============================================

/-- The transcription state machine's status values
(`TranscriptionStatus` from src/types/voice.ts). -/
inductive TStatus where
  | pending
  | uploading
  | processing
  | completed
  | failed
deriving DecidableEq, Repr

/-- Ordered observable effects of one `transcribe(audioUri, deleteAfter)`
call: `setStatus` updates and `deleteAudioFile(audioUri)` calls. -/
inductive TEvent where
  | statusSet (s : TStatus)
  | deleteFile
deriving DecidableEq, Repr

/-- The `TranscriptionError` record the hook builds on failure (the fields
that drive behaviour; `message` and wall-clock `timestamp` are omitted). -/
structure TranscriptionError where
  code : String
  userMessage : String
  retryable : Bool
deriving DecidableEq, Repr

/-- The hook's error-code rendering: a string code is used verbatim, a
numeric code becomes the ASR-prefixed string. -/
def codeString : ASRErrCode → String
  | .net s => s
  | .status n => "ASR_" ++ toString n

/-- Result of one `transcribe` call: the ordered effect list and the
returned `TranscriptionResult`'s behavioural fields. -/
structure TranscribeOut where
  events : List TEvent
  success : Bool
  text : Option String
  errorInfo : Option TranscriptionError
deriving DecidableEq, Repr

/-- `transcribe(audioUri, deleteAfter)` from hooks/useAlibabaASR.ts.
`tokenOk` is whether `getASRToken()` resolves (on rejection the hook throws
its own `ASRError` with the string code TOKEN_MISSING); `remote` is what the
`transcribeWithRetry` call does. Success path: set `uploading`, set
`processing`, then — only when `deleteAfter` — delete the artifact, then set
`completed`. `ASRError` catch path: set `failed`, then delete the artifact
exactly when the error is non-retriable and `deleteAfter`. Non-ASR catch
path: set `failed`, report code UNKNOWN_ERROR with `retryable: true`, never
delete. -/
def transcribe (tokenOk : Bool) (remote : RetryResult) (deleteAfter : Bool) : TranscribeOut :=
  if tokenOk then
    match remote with
    | .success t =>
      { events := [.statusSet .uploading, .statusSet .processing]
          ++ (if deleteAfter then [.deleteFile] else []) ++ [.statusSet .completed]
        success := true, text := some t, errorInfo := none }
    | .thrownASR e =>
      { events := [.statusSet .uploading, .statusSet .processing, .statusSet .failed]
          ++ (if e.retriable = false ∧ deleteAfter then [.deleteFile] else [])
        success := false, text := none
        errorInfo := some ⟨codeString e.code, e.userMessage, e.retriable⟩ }
    | .thrownOther | .thrownUndefined =>
      { events := [.statusSet .uploading, .statusSet .processing, .statusSet .failed]
        success := false, text := none
        errorInfo := some ⟨"UNKNOWN_ERROR", "转录失败，请重试", true⟩ }
  else
    let e := mkASRError (.net "TOKEN_MISSING") "Failed to get ASR token" none
    { events := [.statusSet .uploading, .statusSet .failed]
        ++ (if e.retriable = false ∧ deleteAfter then [.deleteFile] else [])
      success := false, text := none
      errorInfo := some ⟨codeString e.code, e.userMessage, e.retriable⟩ }

/-- The audio artifact survives the call exactly when no
`deleteAudioFile` effect occurred (the artifact exists on entry and the
flow is its only writer). -/
def artifactRemains (out : TranscribeOut) : Prop :=
  TEvent.deleteFile ∉ out.events

instance (out : TranscribeOut) : Decidable (artifactRemains out) := by
  unfold artifactRemains; infer_instance

/-- The deletion effect happens strictly before the `completed` status is
reported. -/
def deletedBeforeCompleted (out : TranscribeOut) : Prop :=
  ∃ i j, i < j ∧ out.events.get? i = some TEvent.deleteFile
    ∧ out.events.get? j = some (TEvent.statusSet TStatus.completed)

-- ============================================
-- Connectivity-gated submission (modelled from the spec)
-- ============================================

/-- Modelled from the spec: the submission step that hands a completed
artifact to the transcription flow behind a connectivity precondition is not
present under src/ — the chat screen still uses a mock transcript and tasks
T024–T042 of specs/001-voice-recognition/tasks.md (integration and network
error handling) are unchecked. Per the spec: on a failed connectivity check
the attempt transitions immediately to `failed` with error
NETWORK_UNAVAILABLE without consuming a network attempt; otherwise the
`transcribe` flow runs. The NETWORK_UNAVAILABLE error itself is built with
the real `ASRError` constructor over the real `NETWORK_ERROR_MAP`, both from
src/. Returns the flow outcome and the number of network attempts issued. -/
def submitTranscription (online : Bool) (tokenOk : Bool) (env : Nat → AttemptOutcome)
    (deleteAfter : Bool) : TranscribeOut × Nat :=
  if online then
    if tokenOk then
      let r := transcribeWithRetry env ASR_MAX_RETRIES
      (transcribe true r.result deleteAfter, r.attempts)
    else
      (transcribe false .thrownUndefined deleteAfter, 0)
  else
    let e := mkASRError (.net "NETWORK_UNAVAILABLE") "No network connection" none
    ({ events := [.statusSet .failed]
       success := false, text := none
       errorInfo := some ⟨codeString e.code, e.userMessage, e.retriable⟩ }, 0)

-- ============================================
-- Recording session (unnamed useVoiceRecording hook, stopRecording)
-- ============================================

/-- The recording state machine's status values
(`RecordingStatus` from src/types/voice.ts). -/
inductive RecStatus where
  | idle
  | preparing
  | recording
  | stopping
  | completed
  | cancelled
  | failed
deriving DecidableEq, Repr

/-- Hook-level state read and written by `stopRecording`. -/
structure RecState where
  status : RecStatus
  audioUri : Option String
deriving DecidableEq, Repr

/-- Environment of one `stopRecording` call: the recorder's `isRecording`
flag, its `uri` after stopping, whether `getAudioFileInfo` reports the file
as existing, and the clock values used for `finalDuration`
(`Date.now()` and `startTimeRef.current`, milliseconds). -/
structure StopEnv where
  recorderIsRecording : Bool
  recorderUri : Option String
  fileExists : Bool
  now : ℚ
  startTime : ℚ
deriving DecidableEq, Repr

/-- Result of one `stopRecording` call: the post-call hook state, whether the
duration timer was cleared, the uris passed to `deleteAudioFile`, and the
returned `RecordingResult` fields (`error` reduced to its code). -/
structure StopOut where
  state : RecState
  timerCleared : Bool
  deleted : List String
  resUri : Option String
  resDuration : ℚ
  resSuccess : Bool
  resError : Option String
deriving DecidableEq, Repr

/-- `stopRecording()` from the useVoiceRecording hook. Step order of the
source: clear the timer; guard `status !== "recording"` (INVALID_STATE
no-op); set `stopping`; compute `finalDuration = (Date.now() - start)/1000`;
if the recorder never actually started, go to `cancelled` with TOO_SHORT; stop
the recorder and read `uri` (a missing uri throws, caught as
RECORDING_FAILED with `failed`); set `audioUri`; if `finalDuration <
MIN_DURATION`, delete the file, set `cancelled`, clear `audioUri`, return
TOO_SHORT; if the file does not exist, throw (RECORDING_FAILED, `failed`);
otherwise set `completed` and return the uri and duration. -/
def stopRecording (s : RecState) (env : StopEnv) : StopOut :=
  if s.status ≠ RecStatus.recording then
    { state := s, timerCleared := true, deleted := []
      resUri := none, resDuration := 0, resSuccess := false
      resError := some "INVALID_STATE" }
  else
    let finalDuration := (env.now - env.startTime) / 1000
    if env.recorderIsRecording = false then
      { state := { status := .cancelled, audioUri := s.audioUri }
        timerCleared := true, deleted := []
        resUri := none, resDuration := finalDuration, resSuccess := false
        resError := some "TOO_SHORT" }
    else
      match env.recorderUri with
      | none =>
        { state := { status := .failed, audioUri := s.audioUri }
          timerCleared := true, deleted := []
          resUri := none, resDuration := 0, resSuccess := false
          resError := some "RECORDING_FAILED" }
      | some uri =>
        if finalDuration < MIN_DURATION then
          { state := { status := .cancelled, audioUri := none }
            timerCleared := true, deleted := [uri]
            resUri := none, resDuration := finalDuration, resSuccess := false
            resError := some "TOO_SHORT" }
        else if env.fileExists = false then
          { state := { status := .failed, audioUri := some uri }
            timerCleared := true, deleted := []
            resUri := none, resDuration := 0, resSuccess := false
            resError := some "RECORDING_FAILED" }
        else
          { state := { status := .completed, audioUri := some uri }
            timerCleared := true, deleted := []
            resUri := some uri, resDuration := finalDuration, resSuccess := true
            resError := none }

-- ============================================
-- Duration-interval tick (useVoiceRecording hook, startDurationInterval)
-- ============================================

/-- Effects one tick of the `setInterval` callback in
`startDurationInterval` can perform. `invokeStop` is included so the claim
about the max-duration trigger is expressible; the source callback has no
call that would emit it. -/
inductive TickEffect where
  | setDuration (elapsed : ℚ)
  | clearTimer
  | hapticWarning
  | logAutoStop
  | invokeStop
deriving DecidableEq, Repr

/-- One tick of the duration interval: compute
`elapsed = (Date.now() - start)/1000`, display it, and — when `elapsed >=
MAX_DURATION` — clear the interval, fire a haptic warning, and log
"Max duration reached, auto-stopping". That is the whole branch body in the
source: it contains no call to `stopRecording` or `recorder.stop`. -/
def durationTick (now startTime : ℚ) : List TickEffect :=
  let elapsed := (now - startTime) / 1000
  if MAX_DURATION ≤ elapsed then
    [.setDuration elapsed, .clearTimer, .hapticWarning, .logAutoStop]
  else
    [.setDuration elapsed]

-- ============================================
-- Helper lemmas on the retry loop
-- ============================================

/-- The loop issues at most `remaining` network attempts. -/
lemma retryAux_attempts_le (env : Nat → AttemptOutcome) (maxRetries : Nat) :
    ∀ (remaining attempt : Nat) (lastError : Option ASRError),
      (retryAux env maxRetries attempt remaining lastError).attempts ≤ remaining := by
  intro remaining
  induction remaining with
  | zero =>
    intro attempt lastError
    cases lastError <;> simp [retryAux]
  | succ n ih =>
    intro attempt lastError
    cases h : env attempt with
    | ok t => simp [retryAux, h]
    | otherErr => simp [retryAux, h]
    | asrErr e =>
      cases hr : e.retriable with
      | false => simp [retryAux, h, hr]
      | true =>
        simp only [retryAux, h, hr]
        rw [if_neg (by simp)]
        split
        · simp
        · show (retryAux env maxRetries (attempt + 1) n (some e)).attempts + 1 ≤ n + 1
          have := ih (attempt + 1) (some e)
          omega

/-- Once `lastError` is assigned, or at least one loop iteration remains,
the loop can no longer throw an unassigned `lastError!`. -/
lemma retryAux_result_assigned (env : Nat → AttemptOutcome) (maxRetries : Nat) :
    ∀ (remaining attempt : Nat) (lastError : Option ASRError),
      1 ≤ remaining ∨ lastError ≠ none →
      (retryAux env maxRetries attempt remaining lastError).result ≠ .thrownUndefined := by
  intro remaining
  induction remaining with
  | zero =>
    intro attempt lastError h
    rcases h with h | h
    · omega
    · cases lastError with
      | none => exact absurd rfl h
      | some e => simp [retryAux]
  | succ n ih =>
    intro attempt lastError _
    cases h : env attempt with
    | ok t => simp [retryAux, h]
    | otherErr => simp [retryAux, h]
    | asrErr e =>
      cases hr : e.retriable with
      | false => simp [retryAux, h, hr]
      | true =>
        simp only [retryAux, h, hr]
        rw [if_neg (by simp)]
        split
        · simp
        · show (retryAux env maxRetries (attempt + 1) n (some e)).result ≠ .thrownUndefined
          exact ih (attempt + 1) (some e) (Or.inr (by simp))

-- ============================================
-- Claim theorems
-- ============================================

/-- C2: any error raised inside the automatic retry wrapper whose retriable
flag is false is raised to the caller from that very iteration, with exactly
the one network attempt that produced it and no backoff sleep — zero further
attempts are issued, from any reachable loop state. -/
theorem nonretriable_error_raised_immediately (env : Nat → AttemptOutcome)
    (maxRetries attempt remaining : Nat) (lastError : Option ASRError) (e : ASRError)
    (henv : env attempt = .asrErr e) (hret : e.retriable = false) :
    retryAux env maxRetries attempt (remaining + 1) lastError =
      ⟨.thrownASR e, 1, []⟩ := by
  simp [retryAux, henv, hret]

/-- Witness for C2: a non-retriable INVALID_PARAMETER error on the first
attempt of a fresh default-budget invocation is raised with a single attempt. -/
theorem nonretriable_error_raised_immediately_witness :
    retryAux (fun _ => .asrErr (mkASRError (.status 40000003) "Invalid audio format" none))
        3 0 3 none =
      ⟨.thrownASR (mkASRError (.status 40000003) "Invalid audio format" none), 1, []⟩ :=
  nonretriable_error_raised_immediately _ 3 0 2 none _ rfl (by decide)

/-- C3: with the default budget `ASR_MAX_RETRIES = 3` the wrapper issues at
most 3 network attempts; when every attempt fails with a retriable error it
issues exactly 3, sleeps the doubling backoff delays `ASR_RETRY_DELAY` then
`2 * ASR_RETRY_DELAY` (1s then 2s — the doubling series 1s, 2s, 4s truncated
by the budget) between them, and raises the last error to the caller. -/
theorem transcribeWithRetry_default_budget :
    (∀ env, (transcribeWithRetry env ASR_MAX_RETRIES).attempts ≤ 3) ∧
    (∀ e : Nat → ASRError, (∀ i, (e i).retriable = true) →
      transcribeWithRetry (fun i => .asrErr (e i)) ASR_MAX_RETRIES =
        ⟨.thrownASR (e 2), 3, [ASR_RETRY_DELAY, 2 * ASR_RETRY_DELAY]⟩) := by
  constructor
  · intro env
    exact retryAux_attempts_le env ASR_MAX_RETRIES ASR_MAX_RETRIES 0 none
  · intro e h
    have h0 := h 0
    have h1 := h 1
    have h2 := h 2
    simp [transcribeWithRetry, ASR_MAX_RETRIES, retryAux, h0, h1, h2, ASR_RETRY_DELAY]

/-- Witness for C3: three consecutive SERVER_INTERNAL_ERROR (50000000)
responses — a 5xx-class retriable code — exhaust the budget with delays
1000 ms and 2000 ms and raise the last error. -/
theorem transcribeWithRetry_default_budget_witness :
    (transcribeWithRetry
        (fun _ => .asrErr (mkASRError (.status 50000000) "Internal server error" none))
        ASR_MAX_RETRIES).attempts ≤ 3 ∧
    transcribeWithRetry
        (fun _ => .asrErr (mkASRError (.status 50000000) "Internal server error" none))
        ASR_MAX_RETRIES =
      ⟨.thrownASR (mkASRError (.status 50000000) "Internal server error" none), 3,
        [ASR_RETRY_DELAY, 2 * ASR_RETRY_DELAY]⟩ :=
  ⟨transcribeWithRetry_default_budget.1 _,
    transcribeWithRetry_default_budget.2
      (fun _ => mkASRError (.status 50000000) "Internal server error" none)
      (fun _ => by
        show (mkASRError (.status 50000000) "Internal server error" none).retriable = true
        decide)⟩

/-- C10: calling the retry wrapper with `maxRetries = 0` (any budget ≤ 0
never enters the loop) issues no network attempt and throws the never
assigned `lastError` — an undefined value, not a typed ASR error; with any
budget ≥ 1 the thrown-undefined outcome is impossible. -/
theorem transcribeWithRetry_zero_budget :
    (∀ env, transcribeWithRetry env 0 = ⟨.thrownUndefined, 0, []⟩) ∧
    (∀ env maxRetries, 1 ≤ maxRetries →
      (transcribeWithRetry env maxRetries).result ≠ .thrownUndefined) := by
  constructor
  · intro env
    rfl
  · intro env maxRetries h
    exact retryAux_result_assigned env maxRetries maxRetries 0 none (Or.inl h)

/-- Witness for C10: at budget 0 nothing is attempted and the result is the
undefined throw; at budget 1 the result is a real outcome. -/
theorem transcribeWithRetry_zero_budget_witness :
    transcribeWithRetry (fun _ => .ok "你好") 0 = ⟨.thrownUndefined, 0, []⟩ ∧
    (transcribeWithRetry (fun _ => .ok "你好") 1).result ≠ .thrownUndefined :=
  ⟨transcribeWithRetry_zero_budget.1 _,
    transcribeWithRetry_zero_budget.2 _ 1 (by decide)⟩

/-- C5 counterexample: status code 50000002 is absent from `ASR_ERROR_MAP`
and is a server-side (5xx-class) condition, not a permanent client-side
mistake, yet the constructed error carries `retriable = false` — refuting the
claim that unrecognized codes default to retriable = true. The generic
try-again user message is used as claimed. -/
theorem unknown_server_code_not_retriable :
    ASR_ERROR_MAP 50000002 = none ∧
    (mkASRError (.status 50000002) "unknown status" none).retriable = false ∧
    (mkASRError (.status 50000002) "unknown status" none).userMessage
      = "语音识别失败，请重试" := by
  refine ⟨rfl, rfl, rfl⟩

/-- C5 (amended): for every provider status code absent from
`ASR_ERROR_MAP`, the constructed error carries the generic try-again user
message and `retriable = false` — the `?? false` fallback fails closed for
all unknown codes, with no client-side/server-side distinction. -/
theorem unknown_codes_fail_closed (n : Nat) (st : String) (tid : Option String)
    (h : ASR_ERROR_MAP n = none) :
    (mkASRError (.status n) st tid).retriable = false ∧
    (mkASRError (.status n) st tid).userMessage = "语音识别失败，请重试" := by
  constructor
  · show isRetriable (.status n) = false
    simp [isRetriable, h]
  · show getUserMessage (.status n) = "语音识别失败，请重试"
    simp [getUserMessage, h]

/-- Witness for the amended C5 at the concrete unknown code 50000002. -/
theorem unknown_codes_fail_closed_witness :
    ASR_ERROR_MAP 50000002 = none ∧
    ((mkASRError (.status 50000002) "unmapped" none).retriable = false ∧
      (mkASRError (.status 50000002) "unmapped" none).userMessage
        = "语音识别失败，请重试") :=
  ⟨rfl, unknown_codes_fail_closed 50000002 "unmapped" none rfl⟩

/-- C6 counterexample: the "audio too short" provider code 40000014 is mapped
`retriable: true` in `ASR_ERROR_MAP`, and the default-delete transcription
flow on that error leaves the artifact on disk and reports a retryable
failure — refuting the claim that it is non-retriable with immediate artifact
deletion. -/
theorem audio_too_short_retriable_counterexample :
    isRetriable (.status 40000014) = true ∧
    artifactRemains
      (transcribe true
        (.thrownASR (mkASRError (.status 40000014) "Audio duration less than 0.5 seconds" none))
        true) ∧
    (transcribe true
        (.thrownASR (mkASRError (.status 40000014) "Audio duration less than 0.5 seconds" none))
        true).errorInfo
      = some ⟨"ASR_40000014", "录音时间过短，请重新录制", true⟩ := by
  refine ⟨rfl, by decide, rfl⟩

/-- C6 (amended): when the provider returns the "audio too short" status code
(40000014), the error is classified retriable = true: the transcription
attempt reaches `failed`, the artifact is preserved on disk under the default
delete-after behaviour, and the error surfaces as retryable (so the retry
affordance remains available). -/
theorem audio_too_short_failed_artifact_preserved (st : String) (tid : Option String) :
    (mkASRError (.status 40000014) st tid).retriable = true ∧
    (transcribe true (.thrownASR (mkASRError (.status 40000014) st tid)) true).events
      = [.statusSet .uploading, .statusSet .processing, .statusSet .failed] ∧
    artifactRemains (transcribe true (.thrownASR (mkASRError (.status 40000014) st tid)) true) ∧
    (transcribe true (.thrownASR (mkASRError (.status 40000014) st tid)) true).errorInfo
      = some ⟨"ASR_40000014", "录音时间过短，请重新录制", true⟩ := by
  have hret : (mkASRError (.status 40000014) st tid).retriable = true := rfl
  refine ⟨hret, ?_, ?_, ?_⟩
  · simp [transcribe, hret]
  · simp [artifactRemains, transcribe, hret]
  · rfl

/-- C1: under the default delete-after behaviour, a successful remote call
deletes the artifact strictly before the `completed` status is reported; on
any failing run (token failure, thrown ASR error, or a non-ASR throw) the
artifact remains on disk exactly when the reported error is retryable —
non-retriable errors delete it immediately, retriable ones preserve it. -/
theorem transcribe_artifact_lifetime :
    (∀ t : String,
      deletedBeforeCompleted (transcribe true (.success t) true) ∧
      TEvent.deleteFile ∈ (transcribe true (.success t) true).events) ∧
    (∀ (tokenOk : Bool) (remote : RetryResult),
      (tokenOk = false ∨ ∀ t, remote ≠ RetryResult.success t) →
      (artifactRemains (transcribe tokenOk remote true) ↔
        (transcribe tokenOk remote true).errorInfo.map TranscriptionError.retryable
          = some true)) := by
  constructor
  · intro t
    constructor
    · exact ⟨2, 3, by omega, rfl, rfl⟩
    · simp [transcribe]
  · intro tokenOk remote h
    cases tokenOk with
    | false =>
      simp [transcribe, artifactRemains, mkASRError, isRetriable,
        NETWORK_ERROR_MAP, codeString]
    | true =>
      cases remote with
      | success t =>
        rcases h with h | h
        · exact absurd h (by simp)
        · exact absurd rfl (h t)
      | thrownASR e =>
        cases hr : e.retriable with
        | false => simp [transcribe, artifactRemains, hr]
        | true => simp [transcribe, artifactRemains, hr]
      | thrownOther => simp [transcribe, artifactRemains]
      | thrownUndefined => simp [transcribe, artifactRemains]

/-- Witness for C1: a successful run on a concrete text, and a failing run
with the retriable SERVER_TIMEOUT error. -/
theorem transcribe_artifact_lifetime_witness :
    (deletedBeforeCompleted (transcribe true (.success "今天天气真不错") true) ∧
      TEvent.deleteFile ∈ (transcribe true (.success "今天天气真不错") true).events) ∧
    (artifactRemains
        (transcribe true (.thrownASR (mkASRError (.status 50000001) "Server timeout" none)) true) ↔
      (transcribe true (.thrownASR (mkASRError (.status 50000001) "Server timeout" none))
          true).errorInfo.map TranscriptionError.retryable = some true) :=
  ⟨transcribe_artifact_lifetime.1 "今天天气真不错",
    transcribe_artifact_lifetime.2 true _ (Or.inr (fun _ h => nomatch h))⟩

/-- C4: submitting an artifact while the connectivity check fails transitions
the attempt directly to `failed` carrying the NETWORK_UNAVAILABLE error with
its mapped user message and retriable = true (from the real
`NETWORK_ERROR_MAP`), issues zero network attempts, and performs no deletion,
so the artifact still exists afterwards. The gating step itself is modelled
from the spec (see `submitTranscription`); the error classification is the
source's. -/
theorem offline_submission_fails_without_attempt :
    ∀ (tokenOk : Bool) (env : Nat → AttemptOutcome) (deleteAfter : Bool),
      submitTranscription false tokenOk env deleteAfter =
        ({ events := [.statusSet .failed]
           success := false
           text := none
           errorInfo := some ⟨"NETWORK_UNAVAILABLE", "无网络连接，请检查网络后重试", true⟩ }, 0) ∧
      artifactRemains (submitTranscription false tokenOk env deleteAfter).1 := by
  intro tokenOk env deleteAfter
  refine ⟨rfl, ?_⟩
  show TEvent.deleteFile ∉ [TEvent.statusSet TStatus.failed]
  decide

/-- C7: stopping an actually running capture (`status = recording`, the
recorder started and produced a uri) with measured duration below
`MIN_DURATION = 0.5` s ends the session in the terminal `cancelled` state —
never `completed` — deletes the freshly written artifact, clears the
session's audio uri, and reports a TOO_SHORT failure. -/
theorem stop_too_short_cancelled (s : RecState) (env : StopEnv) (u : String)
    (hs : s.status = RecStatus.recording)
    (hrec : env.recorderIsRecording = true)
    (huri : env.recorderUri = some u)
    (hd : (env.now - env.startTime) / 1000 < MIN_DURATION) :
    stopRecording s env =
      { state := { status := .cancelled, audioUri := none }
        timerCleared := true
        deleted := [u]
        resUri := none
        resDuration := (env.now - env.startTime) / 1000
        resSuccess := false
        resError := some "TOO_SHORT" } := by
  simp [stopRecording, hs, hrec, huri, hd]

/-- Witness for C7: a session stopped after 400 ms (duration 0.4 s < 0.5 s)
is cancelled, its artifact deleted and its uri cleared. -/
theorem stop_too_short_cancelled_witness :
    stopRecording ⟨RecStatus.recording, none⟩
        ⟨true, some "recording_1700000000000_ab12cd.m4a", true, 400, 0⟩ =
      { state := { status := .cancelled, audioUri := none }
        timerCleared := true
        deleted := ["recording_1700000000000_ab12cd.m4a"]
        resUri := none
        resDuration := ((400 : ℚ) - 0) / 1000
        resSuccess := false
        resError := some "TOO_SHORT" } :=
  stop_too_short_cancelled _ _ _ rfl rfl rfl (by norm_num [MIN_DURATION])

/-- C9: calling `stopRecording` while the session status is anything other
than `recording` returns the INVALID_STATE result with `audioUri: null`,
`duration: 0`, `success: false`, leaves the hook state (status and stored
uri) untouched, deletes nothing, and only the duration timer is cleared —
making a second stop of the same session a no-op. -/
theorem stop_invalid_state_noop (s : RecState) (env : StopEnv)
    (h : s.status ≠ RecStatus.recording) :
    stopRecording s env =
      { state := s
        timerCleared := true
        deleted := []
        resUri := none
        resDuration := 0
        resSuccess := false
        resError := some "INVALID_STATE" } := by
  simp [stopRecording, h]

/-- Witness for C9: a stop issued after the session already reached
`completed` (the double-stop scenario) changes nothing and reports
INVALID_STATE. -/
theorem stop_invalid_state_noop_witness :
    stopRecording ⟨RecStatus.completed, some "recording_1700000000000_ab12cd.m4a"⟩
        ⟨false, none, true, 45000, 0⟩ =
      { state := ⟨RecStatus.completed, some "recording_1700000000000_ab12cd.m4a"⟩
        timerCleared := true
        deleted := []
        resUri := none
        resDuration := 0
        resSuccess := false
        resError := some "INVALID_STATE" } :=
  stop_invalid_state_noop _ _ (by decide)

/-- C8: at a duration-interval tick with elapsed time 60 s (the
`MAX_DURATION` trigger) the source callback only updates the displayed
duration, clears its own interval, fires a haptic warning and logs
"auto-stopping" — it performs no stop invocation at all, so the session does
not auto-transition to `stopping` from the trigger, contradicting the
claimed exactly-once auto-stop (the code's own comment and the
implementation plan call for stopping here). -/
theorem max_duration_tick_never_invokes_stop :
    durationTick 60000 0 =
      [.setDuration 60, .clearTimer, .hapticWarning, .logAutoStop]
      ∧ TickEffect.invokeStop ∉ durationTick 60000 0
      ∧ ∀ now startTime : ℚ, TickEffect.invokeStop ∉ durationTick now startTime := by
  have h1 : durationTick 60000 0 =
      [.setDuration 60, .clearTimer, .hapticWarning, .logAutoStop] := by
    norm_num [durationTick, MAX_DURATION]
  refine ⟨h1, ?_, ?_⟩
  · rw [h1]
    decide
  · intro now startTime
    simp only [durationTick]
    split
    · intro hmem
      rcases List.mem_cons.mp hmem with h | hmem
      · exact nomatch h
      rcases List.mem_cons.mp hmem with h | hmem
      · exact nomatch h
      rcases List.mem_cons.mp hmem with h | hmem
      · exact nomatch h
      rcases List.mem_cons.mp hmem with h | hmem
      · exact nomatch h
      exact absurd hmem (List.not_mem_nil _)
    · intro hmem
      rcases List.mem_cons.mp hmem with h | hmem
      · exact nomatch h
      exact absurd hmem (List.not_mem_nil _)
